import Mathlib

/-!
Shallow embedding of `legal_agents_team.py`, a Streamlit app that builds a
legal-document analysis team over a Qdrant vector store.  The script runs
top-to-bottom on every interaction; Streamlit session state persists across
reruns.  We model one rerun as a pure state transformer that also emits a
log of observable events (UI elements rendered, environment variables set,
ingestion and team-coordinator invocations), and a session as a fold of
reruns over a list of per-rerun widget inputs.
-/

namespace LegalAgents

/-- Python truthiness of an optional string session field: `None` and the
empty string are falsy, every other string is truthy. -/
def truthy : Option String → Bool
  | none => false
  | some s => !s.isEmpty

/-- Mirrors `OpenAIEmbedder(id=..., api_key=..., base_url=...)`. -/
structure OpenAIEmbedder where
  id : String
  api_key : Option String
  base_url : String
  deriving Repr, DecidableEq

/-- Mirrors Agno's `Qdrant(collection=..., url=..., api_key=..., embedder=...)`. -/
structure Qdrant where
  collection : String
  url : String
  api_key : String
  embedder : OpenAIEmbedder
  deriving Repr, DecidableEq

/-- Mirrors `Knowledge(vector_db=...)`. -/
structure Knowledge where
  vector_db : Qdrant
  deriving Repr, DecidableEq

/-- One member agent, keeping the fields the script sets that matter to the
claims (name, role, attached knowledge base). -/
structure Agent where
  name : String
  role : String
  knowledge : Knowledge
  deriving Repr, DecidableEq

/-- The coordinator `Team(...)` with its member agents. -/
structure Team where
  name : String
  members : List Agent
  knowledge : Knowledge
  deriving Repr, DecidableEq

/-- A message within a run output (`message.role`, `message.content`). -/
structure Message where
  role : String
  content : Option String
  deriving Repr, DecidableEq

/-- Mirrors Agno's `RunOutput` as used by the script: `.content` and
`.messages`. -/
structure RunOutput where
  content : Option String
  messages : List Message
  deriving Repr, DecidableEq

/-- An uploaded file: `.name` and `.getvalue()`. -/
structure UploadedFile where
  name : String
  content : String
  deriving Repr, DecidableEq

/-- `st.session_state` after `init_session_state`. -/
structure SessionState where
  openai_api_key : Option String
  openai_base_url : String
  qdrant_api_key : Option String
  qdrant_url : Option String
  vector_db : Option Qdrant
  legal_team : Option Team
  knowledge_base : Option Knowledge
  processed_files : List String
  deriving Repr, DecidableEq

def DEFAULT_BASE_URL : String := "https://api.zhizengzeng.com/v1"

def COLLECTION_NAME : String := "legal_documents"

/-- The session state produced by `init_session_state` on a fresh session. -/
def initState : SessionState :=
  { openai_api_key := none
    openai_base_url := DEFAULT_BASE_URL
    qdrant_api_key := none
    qdrant_url := none
    vector_db := none
    legal_team := none
    knowledge_base := none
    processed_files := [] }

/-- `init_qdrant`: returns `None` unless both `qdrant_api_key` and
`qdrant_url` are truthy, else constructs the Qdrant handle with the
embedder built from the current model credentials. -/
def init_qdrant (s : SessionState) : Option Qdrant :=
  match s.qdrant_api_key, s.qdrant_url with
  | some k, some u =>
      if k.isEmpty || u.isEmpty then none
      else
        some { collection := COLLECTION_NAME
               url := u
               api_key := k
               embedder :=
                 { id := "text-embedding-3-small"
                   api_key := s.openai_api_key
                   base_url := s.openai_base_url } }
  | _, _ => none

/-- Observable events of one rerun: UI elements rendered, environment
variables written, document-ingestion calls and team-coordinator calls. -/
inductive Event where
  | envSet (key value : String)
  | info (msg : String)
  | warning (msg : String)
  | errorMsg (msg : String)
  | successMsg (msg : String)
  | spinner (msg : String)
  | headerMsg (msg : String)
  | writeMsg (msg : String)
  | processDoc (filename : String)
  | teamRun (prompt : String)
  | tabMarkdown (tab : Nat) (text : String)
  deriving Repr, DecidableEq

/-- The five values of the analysis-type selectbox. -/
inductive AnalysisType where
  | contractReview
  | legalResearch
  | riskAssessment
  | complianceCheck
  | customQuery
  deriving Repr, DecidableEq

/-- The Chinese label each selectbox entry carries in the script. -/
def AnalysisType.label : AnalysisType → String
  | .contractReview => "合同审查"
  | .legalResearch => "法律研究"
  | .riskAssessment => "风险评估"
  | .complianceCheck => "合规性检查"
  | .customQuery => "自定义查询"

/-- One entry of the `analysis_configs` dictionary. -/
structure AnalysisConfig where
  query : Option String
  agents : List String
  description : String
  deriving Repr, DecidableEq

/-- The static `analysis_configs` dispatch table, verbatim from the script. -/
def analysis_configs : AnalysisType → AnalysisConfig
  | .contractReview =>
      { query := some "审查此合同并识别关键条款、义务和潜在问题。"
        agents := ["合同分析师"]
        description := "专注于条款和义务的详细合同分析" }
  | .legalResearch =>
      { query := some "研究与此文档相关的案例和判例。"
        agents := ["法律研究员"]
        description := "相关法律案例和判例的研究" }
  | .riskAssessment =>
      { query := some "分析此文档中的潜在法律风险和责任。"
        agents := ["合同分析师", "法律策略师"]
        description := "综合风险分析和战略评估" }
  | .complianceCheck =>
      { query := some "检查此文档的监管合规性问题。"
        agents := ["法律研究员", "合同分析师", "法律策略师"]
        description := "全面的合规性分析" }
  | .customQuery =>
      { query := none
        agents := ["法律研究员", "合同分析师", "法律策略师"]
        description := "使用所有可用智能体的自定义分析" }

/-- The `analysis_icons` dictionary. -/
def analysis_icons : AnalysisType → String
  | .contractReview => "📑"
  | .legalResearch => "🔍"
  | .riskAssessment => "⚠️"
  | .complianceCheck => "✅"
  | .customQuery => "💭"

/-- Python `f"{x}"` on an optional string (f-string of `None` is `"None"`). -/
def strOf : Option String → String
  | none => "None"
  | some s => s

/-- `process_document(uploaded_file, vector_db)`.  The actual
`knowledge_base.add_content` outcome is supplied by the caller as
`ingest` (success or the exception message).  Returns the emitted events
and either the knowledge base or the exception message raised. -/
def process_document (s : SessionState) (uploaded_file : UploadedFile)
    (vector_db : Qdrant) (ingest : Except String Unit) :
    List Event × Except String Knowledge :=
  match s.openai_api_key with
  | none => ([], .error "未提供 OpenAI API 密钥")
  | some k =>
      if k.isEmpty then ([], .error "未提供 OpenAI API 密钥")
      else
        let pre : List Event :=
          [.envSet "OPENAI_API_KEY" k,
           .envSet "OPENAI_BASE_URL" s.openai_base_url,
           .info "正在加载并处理文档...",
           .spinner "📤 正在将文档加载到知识库..."]
        match ingest with
        | .ok _ =>
            (pre ++ [.successMsg "✅ 文档存储成功！"],
             .ok { vector_db := vector_db })
        | .error e =>
            (pre ++ [.errorMsg ("加载文档出错: " ++ e),
                     .errorMsg ("文档处理错误: " ++ e)],
             .error ("处理文档时出错: " ++ e))

/-- The three member agents and the coordinator team the script builds after
a successful ingestion. -/
def buildTeam (kb : Knowledge) : Team :=
  { name := "法律团队负责人"
    members :=
      [{ name := "法律研究员", role := "法律研究专家", knowledge := kb },
       { name := "合同分析师", role := "合同分析专家", knowledge := kb },
       { name := "法律策略师", role := "法律策略专家", knowledge := kb }]
    knowledge := kb }

/-- The widget values and externally determined outcomes of one rerun of the
script: the four sidebar text inputs, the uploader, the analysis selectbox,
the custom-query text area, the analyse button, the outcome of this rerun's
`add_content` call (if one happens), and this rerun's team-coordinator
behaviour (result of the i-th `legal_team.run` call). -/
structure ScriptInput where
  openai_key_input : String
  base_url_input : String
  qdrant_key_input : String
  qdrant_url_input : String
  uploaded_file : Option UploadedFile
  analysis_type : AnalysisType
  user_query_input : String
  button_pressed : Bool
  ingestResult : Except String Unit
  teamOracle : Nat → Except String RunOutput

/-- Sidebar text inputs: each non-empty widget value overwrites its session
field (`if openai_key: st.session_state.openai_api_key = openai_key`, etc.). -/
def applyTextInputs (s : SessionState) (inp : ScriptInput) : SessionState :=
  let s1 := if inp.openai_key_input.isEmpty then s
            else { s with openai_api_key := some inp.openai_key_input }
  let s2 := if inp.base_url_input.isEmpty then s1
            else { s1 with openai_base_url := inp.base_url_input }
  let s3 := if inp.qdrant_key_input.isEmpty then s2
            else { s2 with qdrant_api_key := some inp.qdrant_key_input }
  if inp.qdrant_url_input.isEmpty then s3
  else { s3 with qdrant_url := some inp.qdrant_url_input }

/-- The sidebar block guarded by `all([qdrant_api_key, qdrant_url])`: when
both credentials are truthy and no handle exists yet, store `init_qdrant()`. -/
def qdrantConnectStep (s : SessionState) : SessionState × List Event :=
  if truthy s.qdrant_api_key && truthy s.qdrant_url then
    match s.vector_db with
    | some _ => (s, [])
    | none =>
        match init_qdrant s with
        | some vdb => ({ s with vector_db := some vdb },
                       [.successMsg "成功连接到 Qdrant！"])
        | none => (s, [])
  else (s, [])

/-- The sidebar upload block guarded by
`all([openai_api_key, vector_db])`: dedupe on filename, process the
document, then build the agents and the team.  Returns the updated state
and the emitted events. -/
def uploadSection (s : SessionState) (inp : ScriptInput) :
    SessionState × List Event :=
  if truthy s.openai_api_key && s.vector_db.isSome then
    match inp.uploaded_file with
    | none => (s, [.headerMsg "📄 文档上传"])
    | some f =>
        if f.name ∈ s.processed_files then
          (s, [.headerMsg "📄 文档上传",
               .successMsg "✅ 文档已处理，团队准备就绪！"])
        else
          match s.vector_db with
          | none => (s, [.headerMsg "📄 文档上传"])
          | some vdb =>
              let r := process_document s f vdb inp.ingestResult
              match r.2 with
              | .ok kb =>
                  ({ s with knowledge_base := some kb
                            processed_files := f.name :: s.processed_files
                            legal_team := some (buildTeam kb) },
                   [.headerMsg "📄 文档上传", .spinner "正在处理文档...",
                    .processDoc f.name] ++ r.1 ++
                   [.successMsg "✅ 文档处理完成，团队初始化完毕！"])
              | .error e =>
                  (s, [.headerMsg "📄 文档上传", .spinner "正在处理文档...",
                       .processDoc f.name] ++ r.1 ++
                      [.errorMsg ("处理文档出错: " ++ e)])
  else (s, [.warning "请配置所有 API 凭证以继续"])

/-- The 28-space indentation inside the `combined_query` triple-quoted
f-strings. -/
def sp28 : String := "                            "

/-- The 32-space indentation inside the two follow-up prompt f-strings. -/
def sp32 : String := "                                "

/-- `', '.join(analysis_configs[analysis_type]['agents'])`. -/
def agentsJoined (t : AnalysisType) : String :=
  String.intercalate ", " (analysis_configs t).agents

/-- The `combined_query` f-string (line 350 / line 359), including the
literal newlines and indentation of the Python triple-quoted string. -/
def combined_query (t : AnalysisType) (user_query : String) : String :=
  match t with
  | .customQuery =>
      "\n" ++ sp28 ++ "使用上传的文档作为参考：\n" ++ sp28 ++ "\n"
        ++ sp28 ++ user_query ++ "\n" ++ sp28 ++ "\n"
        ++ sp28 ++ "请搜索知识库并提供文档中的具体引用。\n"
        ++ sp28 ++ "关注领域：" ++ agentsJoined t ++ "\n" ++ sp28
  | _ =>
      "\n" ++ sp28 ++ "使用上传的文档作为参考：\n" ++ sp28 ++ "\n"
        ++ sp28 ++ "主要分析任务：" ++ strOf (analysis_configs t).query ++ "\n"
        ++ sp28 ++ "关注领域：" ++ agentsJoined t ++ "\n" ++ sp28 ++ "\n"
        ++ sp28 ++ "请搜索知识库并提供文档中的具体引用。\n" ++ sp28

/-- The "key points" follow-up prompt (line 385): interpolates
`response.content`, i.e. the output of the first coordinator call. -/
def keyPointsPrompt (c : Option String) (agents : String) : String :=
  "基于之前的分析：    \n" ++ sp32 ++ strOf c ++ "\n" ++ sp32 ++ "\n"
    ++ sp32 ++ "请用要点形式总结关键点。\n"
    ++ sp32 ++ "重点关注来自以下方面的见解：" ++ agents

/-- The "recommendations" follow-up prompt (line 401): it also interpolates
`response.content` — the FIRST call's output, not the key-points output. -/
def recommendationsPrompt (c : Option String) (agents : String) : String :=
  "基于之前的分析：\n" ++ sp32 ++ strOf c ++ "\n" ++ sp32 ++ "\n"
    ++ sp32 ++ "基于分析，您的关键建议是什么，最佳行动方案是什么？\n"
    ++ sp32 ++ "提供来自以下方面的具体建议：" ++ agents

/-- The fallback loop of each tab: render every message with role
`assistant` and truthy content. -/
def assistantFallback (tab : Nat) (msgs : List Message) : List Event :=
  msgs.filterMap fun m =>
    match m.content with
    | some mc => if m.role == "assistant" && !mc.isEmpty then
                   some (.tabMarkdown tab mc)
                 else none
    | none => none

/-- Rendering of one run output inside a tab: `if response.content:` show
it, else show every assistant message with truthy content. -/
def displayResponse (tab : Nat) (r : RunOutput) : List Event :=
  match r.content with
  | some c =>
      if c.isEmpty then assistantFallback tab r.messages
      else [.tabMarkdown tab c]
  | none => assistantFallback tab r.messages

/-- The body of the `try:` under the analyse button: set the two
environment variables, build `combined_query`, then run the three
coordinator calls, rendering each into its tab; any raised exception aborts
the rest and is caught by `except` as `分析过程中出错`.  `oracle i` is the
outcome of the i-th `legal_team.run` call. -/
def runAnalysisCalls (s : SessionState) (t : AnalysisType)
    (user_query : String) (oracle : Nat → Except String RunOutput) :
    List Event :=
  let agents := agentsJoined t
  let q := combined_query t user_query
  [.envSet "OPENAI_API_KEY" (Option.getD s.openai_api_key ""),
   .envSet "OPENAI_BASE_URL" s.openai_base_url,
   .teamRun q] ++
  match oracle 0 with
  | .error e => [.errorMsg ("分析过程中出错: " ++ e)]
  | .ok r0 =>
      [.tabMarkdown 0 "### 详细分析"] ++ displayResponse 0 r0 ++
      [.tabMarkdown 1 "### 关键点",
       .teamRun (keyPointsPrompt r0.content agents)] ++
      match oracle 1 with
      | .error e => [.errorMsg ("分析过程中出错: " ++ e)]
      | .ok r1 =>
          displayResponse 1 r1 ++
          [.tabMarkdown 2 "### 建议",
           .teamRun (recommendationsPrompt r0.content agents)] ++
          match oracle 2 with
          | .error e => [.errorMsg ("分析过程中出错: " ++ e)]
          | .ok r2 => displayResponse 2 r2

/-- The analysis UI of the main content area (state `legal_team` present):
header, description, active-agents line, then — on the button press — the
custom-query guard and the three-call analysis. -/
def analysisSection (s : SessionState) (t : AnalysisType)
    (user_query_input : String) (button_pressed : Bool)
    (oracle : Nat → Except String RunOutput) : List Event :=
  [.headerMsg (analysis_icons t ++ " " ++ t.label),
   .info ("📋 " ++ (analysis_configs t).description),
   .writeMsg ("🤖 活跃法律 AI 智能体: " ++ agentsJoined t)] ++
  if button_pressed then
    if t = AnalysisType.customQuery ∧ user_query_input = "" then
      [.warning "请输入问题"]
    else
      [.spinner "正在分析文档..."] ++
      runAnalysisCalls s t user_query_input oracle
  else []

/-- The main content area (lines 280-417), evaluated on the state left by
the sidebar. -/
def mainContent (s : SessionState) (inp : ScriptInput) : List Event :=
  if truthy s.openai_api_key && s.vector_db.isSome then
    match inp.uploaded_file with
    | none => [.info "👈 请上传法律文档以开始分析"]
    | some _ =>
        match s.legal_team with
        | some _ =>
            analysisSection s inp.analysis_type inp.user_query_input
              inp.button_pressed inp.teamOracle
        | none => [.info "请上传法律文档以开始分析"]
  else [.info "👈 请在侧边栏配置您的 API 凭证以开始"]

/-- One full rerun of the script body of `main()`: sidebar text inputs,
Qdrant connection, upload processing, then the main content area. -/
def scriptStep (s : SessionState) (inp : ScriptInput) :
    SessionState × List Event :=
  let s1 := applyTextInputs s inp
  let p2 := qdrantConnectStep s1
  let p3 := uploadSection p2.1 inp
  (p3.1, p2.2 ++ p3.2 ++ mainContent p3.1 inp)

/-- A whole session: fold of reruns over a list of per-rerun inputs,
accumulating the event log. -/
def sessionRun : SessionState → List ScriptInput → SessionState × List Event
  | s, [] => (s, [])
  | s, inp :: rest =>
      let p := scriptStep s inp
      let q := sessionRun p.1 rest
      (q.1, p.2 ++ q.2)

/-- The prompts of the coordinator invocations, in order, extracted from an
event log. -/
def runPrompts (evs : List Event) : List String :=
  evs.filterMap fun e =>
    match e with
    | .teamRun p => some p
    | _ => none

/-- Number of `process_document` invocations for a given filename in an
event log. -/
def isProcessDocFor (n : String) (e : Event) : Bool :=
  match e with
  | .processDoc m => m == n
  | _ => false

def processDocCount (n : String) (evs : List Event) : Nat :=
  (evs.filter (isProcessDocFor n)).length

/-- An event writes no environment variable other than the two
model-client variables. -/
def EnvOK (e : Event) : Prop :=
  ∀ k v, e = Event.envSet k v →
    k = "OPENAI_API_KEY" ∨ k = "OPENAI_BASE_URL"

/-! Concrete states, inputs and oracles for witnesses and counterexamples. -/

def sampleVdb : Qdrant :=
  { collection := COLLECTION_NAME
    url := "https://q.example"
    api_key := "qk"
    embedder :=
      { id := "text-embedding-3-small"
        api_key := some "sk-test"
        base_url := DEFAULT_BASE_URL } }

def sampleKB : Knowledge := { vector_db := sampleVdb }

def sampleFile : UploadedFile := { name := "contract.pdf", content := "v1" }

/-- A session that has credentials, the Qdrant handle, one processed
document and the initialized team. -/
def readyState : SessionState :=
  { openai_api_key := some "sk-test"
    openai_base_url := DEFAULT_BASE_URL
    qdrant_api_key := some "qk"
    qdrant_url := some "https://q.example"
    vector_db := some sampleVdb
    legal_team := some (buildTeam sampleKB)
    knowledge_base := some sampleKB
    processed_files := ["contract.pdf"] }

/-- Like `readyState` but with no document processed yet and no team. -/
def freshReadyState : SessionState :=
  { readyState with legal_team := none, knowledge_base := none,
                    processed_files := [] }

/-- A session with Qdrant credentials but no model API key. -/
def noKeyState : SessionState :=
  { initState with qdrant_api_key := some "qk",
                   qdrant_url := some "https://q.example" }

def okOutput (c : String) : RunOutput := { content := some c, messages := [] }

/-- Coordinator behaviour where every call succeeds, with distinct output
texts per call. -/
def okOracle : Nat → Except String RunOutput := fun n =>
  Except.ok (okOutput (if n = 0 then "A0" else if n = 1 then "A1" else "A2"))

/-- Coordinator behaviour where the first call succeeds and the second
(key points) call raises. -/
def failOracle : Nat → Except String RunOutput := fun n =>
  if n = 0 then Except.ok (okOutput "A0") else Except.error "模拟失败"

/-- A rerun with no widget activity. -/
def baseInput : ScriptInput :=
  { openai_key_input := ""
    base_url_input := ""
    qdrant_key_input := ""
    qdrant_url_input := ""
    uploaded_file := none
    analysis_type := AnalysisType.contractReview
    user_query_input := ""
    button_pressed := false
    ingestResult := Except.ok ()
    teamOracle := okOracle }

/-- A rerun whose uploader holds a file and whose ingestion succeeds. -/
def uploadInput (name content : String) : ScriptInput :=
  { baseInput with uploaded_file := some { name := name, content := content } }

/-- A rerun whose uploader holds a file and whose ingestion raises `msg`. -/
def uploadFailInput (name content msg : String) : ScriptInput :=
  { baseInput with uploaded_file := some { name := name, content := content }
                   ingestResult := Except.error msg }

set_option maxRecDepth 10000

/-! Helper lemmas about the shapes of emitted event lists. -/

theorem mem_assistantFallback {tab : Nat} {msgs : List Message} {e : Event}
    (h : e ∈ assistantFallback tab msgs) :
    ∃ txt, e = Event.tabMarkdown tab txt := by
  rcases List.mem_filterMap.mp h with ⟨m, _, hf⟩
  rcases hc : m.content with _ | mc <;> rw [hc] at hf <;> dsimp only at hf
  · exact absurd hf (by simp)
  · by_cases hb : (m.role == "assistant" && !mc.isEmpty) = true
    · rw [if_pos hb] at hf
      exact ⟨mc, (Option.some.injEq _ _ ▸ hf).symm⟩
    · rw [if_neg hb] at hf
      exact absurd hf (by simp)

theorem mem_displayResponse {tab : Nat} {r : RunOutput} {e : Event}
    (h : e ∈ displayResponse tab r) :
    ∃ txt, e = Event.tabMarkdown tab txt := by
  unfold displayResponse at h
  rcases hc : r.content with _ | c <;> rw [hc] at h <;> dsimp only at h
  · exact mem_assistantFallback h
  · by_cases hb : c.isEmpty = true
    · rw [if_pos hb] at h
      exact mem_assistantFallback h
    · rw [if_neg hb] at h
      rcases List.mem_singleton.mp h with rfl
      exact ⟨c, rfl⟩

theorem runPrompts_append (a b : List Event) :
    runPrompts (a ++ b) = runPrompts a ++ runPrompts b := by
  simp [runPrompts, List.filterMap_append]

theorem runPrompts_displayResponse (tab : Nat) (r : RunOutput) :
    runPrompts (displayResponse tab r) = [] := by
  refine List.filterMap_eq_nil.mpr fun e he => ?_
  rcases mem_displayResponse he with ⟨txt, rfl⟩
  rfl

theorem displayResponse_of_content {r : RunOutput} {c : String} (tab : Nat)
    (hc : r.content = some c) (hne : c.isEmpty = false) :
    displayResponse tab r = [Event.tabMarkdown tab c] := by
  unfold displayResponse
  rw [hc]
  dsimp only
  rw [hne]
  rfl

/-- C3 counterexample: the custom-query entry of the dispatch table has a
null (`None`) template query, refuting "each of the five ... resolves to a
non-null template query string". -/
theorem C3_counterexample :
    (analysis_configs AnalysisType.customQuery).query = none := rfl

/-- C3 (amended): the dispatch table maps each of the five categories to
the stated (non-empty) participating-agent list; the four preset
categories carry non-null template queries, while 自定义查询 carries a null
template query (the user's free-form text is used instead). -/
theorem C3_dispatch_table :
    (analysis_configs AnalysisType.contractReview).query
        = some "审查此合同并识别关键条款、义务和潜在问题。" ∧
    (analysis_configs AnalysisType.legalResearch).query
        = some "研究与此文档相关的案例和判例。" ∧
    (analysis_configs AnalysisType.riskAssessment).query
        = some "分析此文档中的潜在法律风险和责任。" ∧
    (analysis_configs AnalysisType.complianceCheck).query
        = some "检查此文档的监管合规性问题。" ∧
    (analysis_configs AnalysisType.customQuery).query = none ∧
    (analysis_configs AnalysisType.contractReview).agents = ["合同分析师"] ∧
    (analysis_configs AnalysisType.legalResearch).agents = ["法律研究员"] ∧
    (analysis_configs AnalysisType.riskAssessment).agents
        = ["合同分析师", "法律策略师"] ∧
    (analysis_configs AnalysisType.complianceCheck).agents
        = ["法律研究员", "合同分析师", "法律策略师"] ∧
    (analysis_configs AnalysisType.customQuery).agents
        = ["法律研究员", "合同分析师", "法律策略师"] ∧
    ((analysis_configs AnalysisType.contractReview).agents.length = 1 ∧
     (analysis_configs AnalysisType.legalResearch).agents.length = 1 ∧
     (analysis_configs AnalysisType.riskAssessment).agents.length = 2 ∧
     (analysis_configs AnalysisType.complianceCheck).agents.length = 3 ∧
     (analysis_configs AnalysisType.customQuery).agents.length = 3) := by
  decide

/-- C4: pressing the analyse button with the custom-query category and an
empty question emits exactly the pre-button renders plus the warning
`请输入问题`: no spinner, no coordinator invocation (so the dispatcher never
enters the running phase), for every session state and coordinator
behaviour. -/
theorem C4_empty_custom_query_refused (s : SessionState)
    (oracle : Nat → Except String RunOutput) :
    analysisSection s AnalysisType.customQuery "" true oracle =
      [Event.headerMsg "💭 自定义查询",
       Event.info "📋 使用所有可用智能体的自定义分析",
       Event.writeMsg "🤖 活跃法律 AI 智能体: 法律研究员, 合同分析师, 法律策略师",
       Event.warning "请输入问题"] ∧
    runPrompts (analysisSection s AnalysisType.customQuery "" true oracle)
      = [] := by
  constructor <;> rfl

/-- C4 witness: the refused transition at a concrete ready state and
coordinator. -/
theorem C4_empty_custom_query_refused_witness :
    analysisSection readyState AnalysisType.customQuery "" true okOracle =
      [Event.headerMsg "💭 自定义查询",
       Event.info "📋 使用所有可用智能体的自定义分析",
       Event.writeMsg "🤖 活跃法律 AI 智能体: 法律研究员, 合同分析师, 法律策略师",
       Event.warning "请输入问题"] ∧
    runPrompts (analysisSection readyState AnalysisType.customQuery "" true
      okOracle) = [] :=
  C4_empty_custom_query_refused readyState okOracle

theorem init_qdrant_isSome (s : SessionState) :
    (init_qdrant s).isSome
      = (truthy s.qdrant_api_key && truthy s.qdrant_url) := by
  unfold init_qdrant truthy
  rcases s.qdrant_api_key with _ | k <;> rcases s.qdrant_url with _ | u <;>
    simp
  by_cases hk : k.isEmpty = true <;> by_cases hu : u.isEmpty = true <;>
    simp [hk, hu]

/-- C5: `init_qdrant` yields a handle exactly when both the vector-DB API
key and the vector-DB URL are truthy (present and non-empty). -/
theorem C5_qdrant_iff_credentials (s : SessionState) :
    (init_qdrant s).isSome
      = (truthy s.qdrant_api_key && truthy s.qdrant_url) :=
  init_qdrant_isSome s

/-- C5 witness: the equivalence evaluated at a state with both vector-DB
credentials present. -/
theorem C5_qdrant_iff_credentials_witness :
    (init_qdrant readyState).isSome
      = (truthy readyState.qdrant_api_key && truthy readyState.qdrant_url) :=
  C5_qdrant_iff_credentials readyState

/-- C1 counterexample: with a coordinator that returns output text `A0` on
the first (main analysis) call and `A1` on the second (key points) call,
the third (recommendations) prompt interpolates `A0`, not `A1` — so the
prompt sequence the claim asserts (recommendations built from the
key-points output) is not the one produced. -/
theorem C1_counterexample :
    runPrompts (runAnalysisCalls readyState AnalysisType.contractReview ""
        okOracle) ≠
      [combined_query AnalysisType.contractReview "",
       keyPointsPrompt (some "A0") (agentsJoined AnalysisType.contractReview),
       recommendationsPrompt (some "A1")
         (agentsJoined AnalysisType.contractReview)] := by
  decide

/-- C1 (amended): a completed analysis performs exactly three sequential
coordinator invocations in the order main analysis, key points,
recommendations; the key-points prompt AND the recommendations prompt are
both built by interpolating the FIRST call's output text (the
recommendations prompt is not built from the key-points output). -/
theorem C1_three_sequential_calls (s : SessionState) (t : AnalysisType)
    (uq : String) (oracle : Nat → Except String RunOutput)
    (r0 r1 r2 : RunOutput) (h0 : oracle 0 = Except.ok r0)
    (h1 : oracle 1 = Except.ok r1) (h2 : oracle 2 = Except.ok r2) :
    runPrompts (runAnalysisCalls s t uq oracle) =
      [combined_query t uq,
       keyPointsPrompt r0.content (agentsJoined t),
       recommendationsPrompt r0.content (agentsJoined t)] := by
  unfold runAnalysisCalls
  rw [h0, h1, h2]
  dsimp only
  simp only [runPrompts_append, runPrompts_displayResponse]
  simp [runPrompts]

/-- C1 witness: the three-call prompt sequence at a concrete state and
coordinator. -/
theorem C1_three_sequential_calls_witness :
    runPrompts (runAnalysisCalls readyState AnalysisType.contractReview ""
        okOracle) =
      [combined_query AnalysisType.contractReview "",
       keyPointsPrompt (okOutput "A0").content
         (agentsJoined AnalysisType.contractReview),
       recommendationsPrompt (okOutput "A0").content
         (agentsJoined AnalysisType.contractReview)] :=
  C1_three_sequential_calls readyState AnalysisType.contractReview "" okOracle
    (okOutput "A0") (okOutput "A1") (okOutput "A2") rfl rfl rfl

/-- C2 counterexample: when the second (key points) call raises, the first
call's analysis text is still present in the first output tab (it was
rendered before the failure), while the error is surfaced — refuting "no
partial result ... retained in the displayed state". -/
theorem C2_counterexample :
    Event.tabMarkdown 0 "A0" ∈
      runAnalysisCalls readyState AnalysisType.contractReview "" failOracle ∧
    Event.errorMsg "分析过程中出错: 模拟失败" ∈
      runAnalysisCalls readyState AnalysisType.contractReview "" failOracle := by
  decide

/-- C2 (amended): a failure on the second (key points) call aborts the
remaining invocation (exactly two coordinator calls happen) and surfaces
the error, and nothing is rendered into the recommendations tab — but the
first call's analysis text, already rendered into the first tab, is
retained in the displayed state. -/
theorem C2_failure_aborts_rest (s : SessionState) (t : AnalysisType)
    (uq : String) (oracle : Nat → Except String RunOutput) (r0 : RunOutput)
    (c e : String) (h0 : oracle 0 = Except.ok r0)
    (hc : r0.content = some c) (hne : c.isEmpty = false)
    (h1 : oracle 1 = Except.error e) :
    runPrompts (runAnalysisCalls s t uq oracle) =
      [combined_query t uq, keyPointsPrompt r0.content (agentsJoined t)] ∧
    Event.tabMarkdown 0 c ∈ runAnalysisCalls s t uq oracle ∧
    Event.errorMsg ("分析过程中出错: " ++ e) ∈
      runAnalysisCalls s t uq oracle ∧
    ∀ txt, Event.tabMarkdown 2 txt ∉ runAnalysisCalls s t uq oracle := by
  have hdisp := displayResponse_of_content 0 hc hne
  unfold runAnalysisCalls
  rw [h0, h1]
  dsimp only
  rw [hdisp]
  refine ⟨?_, ?_, ?_, ?_⟩
  · simp only [runPrompts_append]
    simp [runPrompts]
  · simp
  · simp
  · intro txt
    simp

/-- C2 witness: the amended behaviour at a concrete state and a concrete
failing coordinator. -/
theorem C2_failure_aborts_rest_witness :
    runPrompts (runAnalysisCalls readyState AnalysisType.contractReview ""
        failOracle) =
      [combined_query AnalysisType.contractReview "",
       keyPointsPrompt (okOutput "A0").content
         (agentsJoined AnalysisType.contractReview)] ∧
    Event.tabMarkdown 0 "A0" ∈
      runAnalysisCalls readyState AnalysisType.contractReview "" failOracle ∧
    Event.errorMsg ("分析过程中出错: " ++ "模拟失败") ∈
      runAnalysisCalls readyState AnalysisType.contractReview "" failOracle ∧
    ∀ txt, Event.tabMarkdown 2 txt ∉
      runAnalysisCalls readyState AnalysisType.contractReview "" failOracle :=
  C2_failure_aborts_rest readyState AnalysisType.contractReview "" failOracle
    (okOutput "A0") "A0" "模拟失败" rfl rfl rfl rfl

/-! State-projection lemmas for the rerun step. -/

theorem applyTextInputs_vector_db (s : SessionState) (inp : ScriptInput) :
    (applyTextInputs s inp).vector_db = s.vector_db := by
  unfold applyTextInputs
  dsimp only
  split <;> split <;> split <;> split <;> rfl

theorem applyTextInputs_processed_files (s : SessionState)
    (inp : ScriptInput) :
    (applyTextInputs s inp).processed_files = s.processed_files := by
  unfold applyTextInputs
  dsimp only
  split <;> split <;> split <;> split <;> rfl

theorem qdrantConnectStep_fst_of_some (s : SessionState) (v : Qdrant)
    (h : s.vector_db = some v) : (qdrantConnectStep s).1 = s := by
  unfold qdrantConnectStep
  split
  · rw [h]
  · rfl

theorem qdrantConnectStep_processed_files (s : SessionState) :
    ((qdrantConnectStep s).1).processed_files = s.processed_files := by
  unfold qdrantConnectStep
  repeat' split
  all_goals rfl

theorem qdrantConnectStep_vector_db_none (s : SessionState)
    (h : s.vector_db = none) :
    ((qdrantConnectStep s).1).vector_db = init_qdrant s := by
  unfold qdrantConnectStep
  split
  · rw [h]
    cases hq : init_qdrant s with
    | some vdb => rfl
    | none => exact h
  · have h2 : (init_qdrant s).isSome = false := by
      rw [init_qdrant_isSome]
      simp_all
    cases hq : init_qdrant s with
    | none => exact h
    | some vdb => rw [hq] at h2; exact absurd h2 (by simp)

theorem uploadSection_vector_db (s : SessionState) (inp : ScriptInput) :
    ((uploadSection s inp).1).vector_db = s.vector_db := by
  unfold uploadSection
  dsimp only
  repeat' split
  all_goals rfl

theorem scriptStep_vector_db_some (s : SessionState) (inp : ScriptInput)
    (v : Qdrant) (h : s.vector_db = some v) :
    ((scriptStep s inp).1).vector_db = some v := by
  unfold scriptStep
  dsimp only
  rw [uploadSection_vector_db]
  rw [qdrantConnectStep_fst_of_some _ v (by rw [applyTextInputs_vector_db, h])]
  rw [applyTextInputs_vector_db, h]

theorem scriptStep_vector_db_none (s : SessionState) (inp : ScriptInput)
    (h : s.vector_db = none) :
    ((scriptStep s inp).1).vector_db
      = init_qdrant (applyTextInputs s inp) := by
  unfold scriptStep
  dsimp only
  rw [uploadSection_vector_db]
  exact qdrantConnectStep_vector_db_none _
    (by rw [applyTextInputs_vector_db, h])

theorem sessionRun_vector_db_some (inputs : List ScriptInput) :
    ∀ (s : SessionState) (v : Qdrant), s.vector_db = some v →
      ((sessionRun s inputs).1).vector_db = some v := by
  induction inputs with
  | nil => exact fun s v h => h
  | cons inp rest ih =>
      intro s v h
      unfold sessionRun
      dsimp only
      exact ih _ v (scriptStep_vector_db_some s inp v h)

/-- C6: the vector-store handle in session state is written at most once.
Once `vector_db` holds a handle, no later rerun — whatever credential
edits, uploads or analyses it carries — mutates or replaces it; and on a
rerun starting with no handle, the handle becomes exactly `init_qdrant` of
the post-edit credentials (created the first time both vector-DB
credentials are present, `none` otherwise). -/
theorem C6_handle_created_once (s : SessionState)
    (inputs : List ScriptInput) :
    (∀ v, s.vector_db = some v →
        ((sessionRun s inputs).1).vector_db = some v) ∧
    (∀ inp, s.vector_db = none →
        ((scriptStep s inp).1).vector_db
          = init_qdrant (applyTextInputs s inp)) :=
  ⟨fun v h => sessionRun_vector_db_some inputs s v h,
   fun inp h => scriptStep_vector_db_none s inp h⟩

/-- C6 witness: a ready session keeps its handle across two reruns, and a
fresh session's first rerun stores `init_qdrant` of the edited
credentials. -/
theorem C6_handle_created_once_witness :
    ((sessionRun readyState [baseInput, baseInput]).1).vector_db
        = some sampleVdb ∧
    ((scriptStep initState baseInput).1).vector_db
        = init_qdrant (applyTextInputs initState baseInput) :=
  ⟨(C6_handle_created_once readyState [baseInput, baseInput]).1 sampleVdb rfl,
   (C6_handle_created_once initState []).2 baseInput rfl⟩

theorem wrapError_ne (e : String) :
    ("处理文档时出错: " ++ e) ≠ "未提供 OpenAI API 密钥" := by
  intro h
  have hd : ("处理文档时出错: " ++ e).data
      = ("未提供 OpenAI API 密钥").data := congrArg String.data h
  have ha : ("处理文档时出错: " ++ e).data
      = ("处理文档时出错: ").data ++ e.data := rfl
  rw [ha] at hd
  have h1 : ("处理文档时出错: ").data
      = '处' :: ("理文档时出错: ").data := rfl
  have h2 : ("未提供 OpenAI API 密钥").data
      = '未' :: ("提供 OpenAI API 密钥").data := rfl
  rw [h1, h2, List.cons_append] at hd
  injection hd with hc _
  exact absurd hc (by decide)

/-- C8: `process_document` raises the configuration error
`未提供 OpenAI API 密钥` exactly when the model API key is absent (or
empty) in session state, and it raises it before any side effect (the
emitted event list — in particular the environment-variable writes — is
empty); with the key present, no failure carries that configuration
error. -/
theorem C8_key_required (s : SessionState) (f : UploadedFile)
    (vdb : Qdrant) (ingest : Except String Unit) :
    (truthy s.openai_api_key = false →
      process_document s f vdb ingest
        = ([], Except.error "未提供 OpenAI API 密钥")) ∧
    (truthy s.openai_api_key = true →
      (process_document s f vdb ingest).2
        ≠ Except.error "未提供 OpenAI API 密钥") := by
  constructor
  · intro h
    unfold truthy at h
    unfold process_document
    rcases hk : s.openai_api_key with _ | k
    · rfl
    · rw [hk] at h
      have hke : k.isEmpty = true := by simpa using h
      dsimp only
      rw [if_pos hke]
  · intro h hcontra
    unfold truthy at h
    unfold process_document at hcontra
    rcases hk : s.openai_api_key with _ | k <;> rw [hk] at h hcontra
    · exact Bool.noConfusion h
    · have hke : k.isEmpty = false := by simpa using h
      dsimp only at hcontra
      rw [if_neg (by rw [hke]; exact Bool.false_ne_true)] at hcontra
      cases ingest with
      | ok u =>
          dsimp only at hcontra
          exact Except.noConfusion hcontra
      | error e =>
          dsimp only at hcontra
          exact wrapError_ne e ((Except.error.injEq _ _).mp hcontra)

/-- C8 witness: with no key the call fails with the configuration error and
no side effect; with a key it does not fail for that reason. -/
theorem C8_key_required_witness :
    process_document noKeyState sampleFile sampleVdb (Except.ok ())
        = ([], Except.error "未提供 OpenAI API 密钥") ∧
    (process_document readyState sampleFile sampleVdb (Except.ok ())).2
        ≠ Except.error "未提供 OpenAI API 密钥" :=
  ⟨(C8_key_required noKeyState sampleFile sampleVdb (Except.ok ())).1 rfl,
   (C8_key_required readyState sampleFile sampleVdb (Except.ok ())).2 rfl⟩

/-- With a raising ingestion, `process_document` always fails (with the
wrapped exception or the configuration error). -/
theorem process_document_error_of_ingest (s : SessionState)
    (f : UploadedFile) (vdb : Qdrant) (e : String) :
    (process_document s f vdb (Except.error e)).2
      = Except.error ("处理文档时出错: " ++ e) ∨
    (process_document s f vdb (Except.error e)).2
      = Except.error "未提供 OpenAI API 密钥" := by
  unfold process_document
  rcases s.openai_api_key with _ | k
  · exact Or.inr rfl
  · dsimp only
    by_cases hk : k.isEmpty = true
    · rw [if_pos hk]
      exact Or.inr rfl
    · rw [if_neg hk]
      exact Or.inl rfl

/-- A failing rerun step (its ingestion raises) leaves the whole session
state unchanged by the upload block. -/
theorem uploadSection_fst_of_ingest_error (s : SessionState)
    (inp : ScriptInput) (e : String)
    (h : inp.ingestResult = Except.error e) :
    (uploadSection s inp).1 = s := by
  unfold uploadSection
  dsimp only
  rw [h]
  split
  case isFalse => rfl
  case isTrue =>
    split
    case h_1 => rfl
    case h_2 f heq =>
      split
      case isTrue => rfl
      case isFalse hmem =>
        split
        case h_1 => rfl
        case h_2 vdb heq2 =>
          rcases process_document_error_of_ingest s f vdb e with h1 | h1 <;>
            rw [h1]

theorem scriptStep_processed_files_of_ingest_error (s : SessionState)
    (inp : ScriptInput) (e : String)
    (h : inp.ingestResult = Except.error e) :
    ((scriptStep s inp).1).processed_files = s.processed_files := by
  unfold scriptStep
  dsimp only
  rw [uploadSection_fst_of_ingest_error _ _ e h,
    qdrantConnectStep_processed_files, applyTextInputs_processed_files]

/-- C10: a filename enters the Processed-File Set only on a successful
ingestion: any rerun whose ingestion raises leaves `processed_files`
unchanged; consequently (concrete second conjunct) a failed upload of
`contract.pdf` followed by a successful upload of the same name
re-attempts ingestion — two `process_document` invocations occur and the
name is in the set only after the successful one. -/
theorem C10_processed_only_on_success :
    (∀ (s : SessionState) (inp : ScriptInput) (e : String),
      inp.ingestResult = Except.error e →
        ((scriptStep s inp).1).processed_files = s.processed_files) ∧
    processDocCount "contract.pdf"
        (sessionRun freshReadyState
          [uploadFailInput "contract.pdf" "v1" "boom",
           uploadInput "contract.pdf" "v1"]).2 = 2 ∧
    ((sessionRun freshReadyState
        [uploadFailInput "contract.pdf" "v1" "boom"]).1).processed_files
      = [] ∧
    ((sessionRun freshReadyState
        [uploadFailInput "contract.pdf" "v1" "boom",
         uploadInput "contract.pdf" "v1"]).1).processed_files
      = ["contract.pdf"] := by
  refine ⟨scriptStep_processed_files_of_ingest_error, ?_, ?_, ?_⟩ <;> decide

/-- C10 witness: the unchanged-set clause applied at a concrete failing
rerun. -/
theorem C10_processed_only_on_success_witness :
    ((scriptStep freshReadyState
        (uploadFailInput "contract.pdf" "v1" "boom")).1).processed_files
      = freshReadyState.processed_files :=
  C10_processed_only_on_success.1 freshReadyState
    (uploadFailInput "contract.pdf" "v1" "boom") "boom" rfl

/-! Counting `process_document` invocations per filename. -/

theorem processDocCount_append (n : String) (a b : List Event) :
    processDocCount n (a ++ b)
      = processDocCount n a + processDocCount n b := by
  simp [processDocCount, List.filter_append]

theorem processDocCount_displayResponse (n : String) (tab : Nat)
    (r : RunOutput) : processDocCount n (displayResponse tab r) = 0 := by
  unfold processDocCount
  rw [List.filter_eq_nil_iff.mpr fun e he => ?_]
  · rfl
  · rcases mem_displayResponse he with ⟨txt, rfl⟩
    simp [isProcessDocFor]

theorem processDocCount_runAnalysisCalls (n : String) (s : SessionState)
    (t : AnalysisType) (uq : String)
    (oracle : Nat → Except String RunOutput) :
    processDocCount n (runAnalysisCalls s t uq oracle) = 0 := by
  unfold runAnalysisCalls
  dsimp only
  cases oracle 0 with
  | error e => rfl
  | ok r0 =>
      cases oracle 1 with
      | error e =>
          simp only [processDocCount_append, processDocCount_displayResponse]
          rfl
      | ok r1 =>
          cases oracle 2 with
          | error e =>
              simp only [processDocCount_append,
                processDocCount_displayResponse]
              rfl
          | ok r2 =>
              simp only [processDocCount_append,
                processDocCount_displayResponse]
              rfl

theorem processDocCount_analysisSection (n : String) (s : SessionState)
    (t : AnalysisType) (uq : String) (b : Bool)
    (oracle : Nat → Except String RunOutput) :
    processDocCount n (analysisSection s t uq b oracle) = 0 := by
  unfold analysisSection
  simp only [processDocCount_append]
  split
  · split
    · rfl
    · simp only [processDocCount_append, processDocCount_runAnalysisCalls]
      rfl
  · rfl

theorem processDocCount_mainContent (n : String) (s : SessionState)
    (inp : ScriptInput) :
    processDocCount n (mainContent s inp) = 0 := by
  unfold mainContent
  split
  · split
    · rfl
    · split
      · exact processDocCount_analysisSection n s inp.analysis_type
          inp.user_query_input inp.button_pressed inp.teamOracle
      · rfl
  · rfl

theorem processDocCount_qdrantConnectStep (n : String) (s : SessionState) :
    processDocCount n (qdrantConnectStep s).2 = 0 := by
  unfold qdrantConnectStep
  repeat' split
  all_goals rfl

theorem processDocCount_process_document (n : String) (s : SessionState)
    (f : UploadedFile) (vdb : Qdrant) (ingest : Except String Unit) :
    processDocCount n (process_document s f vdb ingest).1 = 0 := by
  unfold process_document
  rcases s.openai_api_key with _ | k
  · rfl
  · dsimp only
    split
    · rfl
    · cases ingest <;> rfl

/-- With the model key truthy and a succeeding ingestion,
`process_document` returns the knowledge base built over the handle. -/
theorem process_document_ok (s : SessionState) (f : UploadedFile)
    (vdb : Qdrant) (hkey : truthy s.openai_api_key = true) :
    (process_document s f vdb (Except.ok ())).2
      = Except.ok { vector_db := vdb } := by
  unfold truthy at hkey
  unfold process_document
  rcases hk : s.openai_api_key with _ | k
  · rw [hk] at hkey
    exact Bool.noConfusion hkey
  · rw [hk] at hkey
    have hke : k.isEmpty = false := by simpa using hkey
    dsimp only
    rw [if_neg (by rw [hke]; exact Bool.false_ne_true)]

/-- One rerun's upload block, seen through the lens of one filename `n`
(assuming this rerun's ingestion, if any, succeeds): either it performs no
ingestion for `n` and leaves membership of `n` in the Processed-File Set
unchanged, or it performs exactly one ingestion for `n` and `n` enters the
set, having not been in it. -/
theorem uploadSection_char (s : SessionState) (inp : ScriptInput)
    (n : String) (hok : inp.ingestResult = Except.ok ()) :
    (processDocCount n (uploadSection s inp).2 = 0 ∧
      (n ∈ ((uploadSection s inp).1).processed_files
        ↔ n ∈ s.processed_files)) ∨
    (processDocCount n (uploadSection s inp).2 = 1 ∧
      n ∈ ((uploadSection s inp).1).processed_files ∧
      n ∉ s.processed_files) := by
  unfold uploadSection
  dsimp only
  rw [hok]
  split
  case isFalse => exact Or.inl ⟨rfl, Iff.rfl⟩
  case isTrue hguard =>
    split
    case h_1 => exact Or.inl ⟨rfl, Iff.rfl⟩
    case h_2 f heq =>
      split
      case isTrue hmem => exact Or.inl ⟨rfl, Iff.rfl⟩
      case isFalse hmem =>
        split
        case h_1 => exact Or.inl ⟨rfl, Iff.rfl⟩
        case h_2 vdb heq2 =>
          simp only [Bool.and_eq_true] at hguard
          have hpd := process_document_ok s f vdb hguard.1
          split
          case h_2 e he =>
            rw [hpd] at he
            exact Except.noConfusion he
          case h_1 kb hkb =>
            by_cases hb : (f.name == n) = true
            · refine Or.inr ⟨?_, ?_, ?_⟩
              · simp only [processDocCount_append,
                  processDocCount_process_document]
                simp [processDocCount, isProcessDocFor, hb]
              · rw [eq_of_beq hb]
                exact List.mem_cons_self n s.processed_files
              · rw [eq_of_beq hb] at hmem
                exact hmem
            · rw [Bool.not_eq_true] at hb
              refine Or.inl ⟨?_, ?_, ?_⟩
              · simp only [processDocCount_append,
                  processDocCount_process_document]
                simp [processDocCount, isProcessDocFor, hb]
              · intro hin
                rcases List.mem_cons.mp hin with h1 | h2
                · exact absurd (beq_of_eq h1.symm) (by rw [hb]; simp)
                · exact h2
              · exact fun h2 => List.mem_cons_of_mem _ h2

/-- The whole-rerun version of `uploadSection_char`: sidebar edits and the
main content area neither ingest nor change the Processed-File Set. -/
theorem scriptStep_char (s : SessionState) (inp : ScriptInput) (n : String)
    (hok : inp.ingestResult = Except.ok ()) :
    (processDocCount n (scriptStep s inp).2 = 0 ∧
      (n ∈ ((scriptStep s inp).1).processed_files
        ↔ n ∈ s.processed_files)) ∨
    (processDocCount n (scriptStep s inp).2 = 1 ∧
      n ∈ ((scriptStep s inp).1).processed_files ∧
      n ∉ s.processed_files) := by
  have hpre : ((qdrantConnectStep (applyTextInputs s inp)).1).processed_files
      = s.processed_files := by
    rw [qdrantConnectStep_processed_files, applyTextInputs_processed_files]
  have hchar := uploadSection_char
    ((qdrantConnectStep (applyTextInputs s inp)).1) inp n hok
  rw [hpre] at hchar
  have hcount : processDocCount n (scriptStep s inp).2
      = processDocCount n
          (uploadSection ((qdrantConnectStep (applyTextInputs s inp)).1)
            inp).2 := by
    unfold scriptStep
    dsimp only
    simp only [processDocCount_append, processDocCount_qdrantConnectStep,
      processDocCount_mainContent]
    omega
  have hst : ((scriptStep s inp).1)
      = ((uploadSection ((qdrantConnectStep (applyTextInputs s inp)).1)
          inp).1) := rfl
  rw [hcount, hst]
  exact hchar

/-- Over a whole session of reruns with succeeding ingestions, a filename
already in the Processed-File Set is never ingested again, and one not in
the set is ingested at most once. -/
theorem sessionRun_count_le (n : String) (inputs : List ScriptInput) :
    ∀ s : SessionState,
      (∀ inp ∈ inputs, inp.ingestResult = Except.ok ()) →
      processDocCount n (sessionRun s inputs).2
        ≤ if n ∈ s.processed_files then 0 else 1 := by
  induction inputs with
  | nil =>
      intro s _
      have : processDocCount n (sessionRun s []).2 = 0 := rfl
      rw [this]
      exact Nat.zero_le _
  | cons inp rest ih =>
      intro s hok
      have hok1 : inp.ingestResult = Except.ok () :=
        hok inp (List.mem_cons_self inp rest)
      have hokr : ∀ i ∈ rest, i.ingestResult = Except.ok () :=
        fun i hi => hok i (List.mem_cons_of_mem inp hi)
      have hcons : (sessionRun s (inp :: rest)).2
          = (scriptStep s inp).2
            ++ (sessionRun ((scriptStep s inp).1) rest).2 := rfl
      have hsplit : processDocCount n (sessionRun s (inp :: rest)).2
          = processDocCount n (scriptStep s inp).2
            + processDocCount n (sessionRun ((scriptStep s inp).1) rest).2 := by
        rw [hcons, processDocCount_append]
      rw [hsplit]
      have hrest := ih ((scriptStep s inp).1) hokr
      rcases scriptStep_char s inp n hok1 with ⟨hz, hiff⟩ | ⟨h1, hmem1, hnot⟩
      · rw [hz]
        by_cases hmem : n ∈ s.processed_files
        · rw [if_pos hmem]
          rw [if_pos (hiff.mpr hmem)] at hrest
          omega
        · rw [if_neg hmem]
          by_cases hmem2 : n ∈ ((scriptStep s inp).1).processed_files
          · exact absurd (hiff.mp hmem2) hmem
          · rw [if_neg hmem2] at hrest
            omega
      · rw [h1, if_neg hnot]
        rw [if_pos hmem1] at hrest
        omega

/-- C7: filename-based dedupe of ingestion.  Over any session whose
ingestions succeed, each filename is ingested at most once (and never if
it is already in the Processed-File Set); concretely, uploading
`contract.pdf` twice — the second time with different content — performs
exactly one ingestion. -/
theorem C7_ingest_once_per_filename :
    (∀ (s : SessionState) (inputs : List ScriptInput),
      (∀ inp ∈ inputs, inp.ingestResult = Except.ok ()) →
      ∀ n, processDocCount n (sessionRun s inputs).2
        ≤ if n ∈ s.processed_files then 0 else 1) ∧
    processDocCount "contract.pdf"
      (sessionRun freshReadyState
        [uploadInput "contract.pdf" "v1",
         uploadInput "contract.pdf" "v2"]).2 = 1 := by
  constructor
  · intro s inputs hok n
    exact sessionRun_count_le n inputs s hok
  · decide

/-- C7 witness: the dedupe bound applied to the concrete two-upload
session (same filename, different contents). -/
theorem C7_ingest_once_per_filename_witness :
    processDocCount "contract.pdf"
      (sessionRun freshReadyState
        [uploadInput "contract.pdf" "v1",
         uploadInput "contract.pdf" "v2"]).2
      ≤ if "contract.pdf" ∈ freshReadyState.processed_files then 0
        else 1 :=
  C7_ingest_once_per_filename.1 freshReadyState
    [uploadInput "contract.pdf" "v1", uploadInput "contract.pdf" "v2"]
    (by intro i hi; fin_cases hi <;> rfl) "contract.pdf"

/-! Which environment variables the script writes. -/

theorem envOK_displayResponse (tab : Nat) (r : RunOutput) :
    ∀ e ∈ displayResponse tab r, EnvOK e := by
  intro e he k v hx
  rcases mem_displayResponse he with ⟨txt, rfl⟩
  exact Event.noConfusion hx

theorem envOK_process_document (s : SessionState) (f : UploadedFile)
    (vdb : Qdrant) (ingest : Except String Unit) :
    ∀ e ∈ (process_document s f vdb ingest).1, EnvOK e := by
  unfold process_document
  rcases s.openai_api_key with _ | key
  · intro e he
    exact absurd he (List.not_mem_nil _)
  · dsimp only
    by_cases hke : key.isEmpty = true
    · rw [if_pos hke]
      intro e he
      exact absurd he (List.not_mem_nil _)
    · rw [if_neg hke]
      cases ingest <;>
      · intro e he
        fin_cases he <;> intro k v hx <;>
          first
            | exact Event.noConfusion hx
            | (injection hx with h1 h2; exact Or.inl h1.symm)
            | (injection hx with h1 h2; exact Or.inr h1.symm)

theorem envOK_qdrantConnectStep (s : SessionState) :
    ∀ e ∈ (qdrantConnectStep s).2, EnvOK e := by
  unfold qdrantConnectStep
  repeat' split
  all_goals intro e he
  all_goals
    first
      | exact absurd he (List.not_mem_nil _)
      | (fin_cases he <;> intro k v hx <;> exact Event.noConfusion hx)

theorem envOK_uploadSection (s : SessionState) (inp : ScriptInput) :
    ∀ e ∈ (uploadSection s inp).2, EnvOK e := by
  unfold uploadSection
  dsimp only
  split
  case isFalse =>
    intro e he
    fin_cases he <;> intro k v hx <;> exact Event.noConfusion hx
  case isTrue =>
    split
    case h_1 =>
      intro e he
      fin_cases he <;> intro k v hx <;> exact Event.noConfusion hx
    case h_2 f heq =>
      split
      case isTrue =>
        intro e he
        fin_cases he <;> intro k v hx <;> exact Event.noConfusion hx
      case isFalse hmem =>
        split
        case h_1 =>
          intro e he
          fin_cases he <;> intro k v hx <;> exact Event.noConfusion hx
        case h_2 vdb heq2 =>
          split <;>
          · refine List.forall_mem_append.mpr
              ⟨List.forall_mem_append.mpr ⟨?_, ?_⟩, ?_⟩
            · intro e he
              fin_cases he <;> intro k v hx <;> exact Event.noConfusion hx
            · exact envOK_process_document s f vdb inp.ingestResult
            · intro e he
              fin_cases he <;> intro k v hx <;> exact Event.noConfusion hx

theorem envOK_runAnalysisCalls (s : SessionState) (t : AnalysisType)
    (uq : String) (oracle : Nat → Except String RunOutput) :
    ∀ e ∈ runAnalysisCalls s t uq oracle, EnvOK e := by
  unfold runAnalysisCalls
  dsimp only
  refine List.forall_mem_append.mpr ⟨?_, ?_⟩
  · intro e he
    fin_cases he <;> intro k v hx
    · injection hx with h1 h2
      exact Or.inl h1.symm
    · injection hx with h1 h2
      exact Or.inr h1.symm
    · exact Event.noConfusion hx
  · rcases h0 : oracle 0 with e0 | r0 <;> dsimp only
    · intro e he
      fin_cases he <;> intro k v hx <;> exact Event.noConfusion hx
    · refine List.forall_mem_append.mpr
        ⟨List.forall_mem_append.mpr ⟨List.forall_mem_append.mpr ⟨?_, ?_⟩,
          ?_⟩, ?_⟩
      · intro e he
        fin_cases he <;> intro k v hx <;> exact Event.noConfusion hx
      · exact envOK_displayResponse 0 r0
      · intro e he
        fin_cases he <;> intro k v hx <;> exact Event.noConfusion hx
      · rcases h1 : oracle 1 with e1 | r1 <;> dsimp only
        · intro e he
          fin_cases he <;> intro k v hx <;> exact Event.noConfusion hx
        · refine List.forall_mem_append.mpr
            ⟨List.forall_mem_append.mpr ⟨?_, ?_⟩, ?_⟩
          · exact envOK_displayResponse 1 r1
          · intro e he
            fin_cases he <;> intro k v hx <;> exact Event.noConfusion hx
          · rcases h2 : oracle 2 with e2 | r2 <;> dsimp only
            · intro e he
              fin_cases he <;> intro k v hx <;> exact Event.noConfusion hx
            · exact envOK_displayResponse 2 r2

theorem envOK_analysisSection (s : SessionState) (t : AnalysisType)
    (uq : String) (b : Bool) (oracle : Nat → Except String RunOutput) :
    ∀ e ∈ analysisSection s t uq b oracle, EnvOK e := by
  unfold analysisSection
  refine List.forall_mem_append.mpr ⟨?_, ?_⟩
  · intro e he
    fin_cases he <;> intro k v hx <;> exact Event.noConfusion hx
  · split
    · split
      · intro e he
        fin_cases he <;> intro k v hx <;> exact Event.noConfusion hx
      · refine List.forall_mem_append.mpr ⟨?_, ?_⟩
        · intro e he
          fin_cases he <;> intro k v hx <;> exact Event.noConfusion hx
        · exact envOK_runAnalysisCalls s t uq oracle
    · intro e he
      exact absurd he (List.not_mem_nil _)

theorem envOK_mainContent (s : SessionState) (inp : ScriptInput) :
    ∀ e ∈ mainContent s inp, EnvOK e := by
  unfold mainContent
  split
  · split
    · intro e he
      fin_cases he <;> intro k v hx <;> exact Event.noConfusion hx
    · split
      · exact envOK_analysisSection s inp.analysis_type
          inp.user_query_input inp.button_pressed inp.teamOracle
      · intro e he
        fin_cases he <;> intro k v hx <;> exact Event.noConfusion hx
  · intro e he
    fin_cases he <;> intro k v hx <;> exact Event.noConfusion hx

theorem envOK_scriptStep (s : SessionState) (inp : ScriptInput) :
    ∀ e ∈ (scriptStep s inp).2, EnvOK e := by
  unfold scriptStep
  dsimp only
  refine List.forall_mem_append.mpr
    ⟨List.forall_mem_append.mpr ⟨?_, ?_⟩, ?_⟩
  · exact envOK_qdrantConnectStep (applyTextInputs s inp)
  · exact envOK_uploadSection _ inp
  · exact envOK_mainContent _ inp

theorem envOK_sessionRun (inputs : List ScriptInput) :
    ∀ s : SessionState, ∀ e ∈ (sessionRun s inputs).2, EnvOK e := by
  induction inputs with
  | nil =>
      intro s e he
      exact absurd he (List.not_mem_nil _)
  | cons inp rest ih =>
      intro s
      have hcons : (sessionRun s (inp :: rest)).2
          = (scriptStep s inp).2
            ++ (sessionRun ((scriptStep s inp).1) rest).2 := rfl
      rw [hcons]
      exact List.forall_mem_append.mpr
        ⟨envOK_scriptStep s inp, ih ((scriptStep s inp).1)⟩

/-- C9: over any whole session, every environment variable the script
writes is one of the two model-client variables `OPENAI_API_KEY` and
`OPENAI_BASE_URL`; no operation writes any other environment variable. -/
theorem C9_env_frame (s : SessionState) (inputs : List ScriptInput)
    (k v : String) (h : Event.envSet k v ∈ (sessionRun s inputs).2) :
    k = "OPENAI_API_KEY" ∨ k = "OPENAI_BASE_URL" :=
  envOK_sessionRun inputs s _ h k v rfl

/-- C9 witness: the frame property applied to a concrete session whose
upload writes `OPENAI_API_KEY`. -/
theorem C9_env_frame_witness :
    "OPENAI_API_KEY" = "OPENAI_API_KEY"
      ∨ "OPENAI_API_KEY" = "OPENAI_BASE_URL" :=
  C9_env_frame freshReadyState [uploadInput "contract.pdf" "v1"]
    "OPENAI_API_KEY" "sk-test" (by decide)

end LegalAgents
